import Mathlib

/-!
Verification of the snowflake-rs identifier library: a shallow embedding of
`src/lib.rs` (codec and generator) and `src/clock.rs` (time sources) into
Lean, with theorems settling the specification's claims.

Machine integers are modelled as `Nat` with explicit `% 2^w` where Rust's
`u64` semantics can discard bits; bit operations (`<<`, `>>`, `|`, `&`) are
modelled by the corresponding `Nat` operations.
-/

/-- `MAX_SEQ_NUM` from `lib.rs`. -/
def MAX_SEQ_NUM : Nat := 4095

/-- The `Snowflake` struct from `lib.rs`: node id, sequence number and
last timestamp.  `node_id` and `seq_num` are `u16` and `ts` is `u64` in the
source; all are modelled as `Nat`. -/
structure Snowflake where
  node_id : Nat
  seq_num : Nat
  ts : Nat
deriving DecidableEq, Repr

/-- `create_id` from `lib.rs`:
`(ts << 22) | ((node as u64) << 12) | (seq as u64)` on `u64`.
The left shift of `ts` by 22 is a `u64` shift, so bits above position 63
are discarded: modelled by `% 2^64`.  `node` and `seq` are `u16` values
(`< 2^16`), so their shifts cannot overflow 64 bits. -/
def create_id (ts node seq : Nat) : Nat :=
  let ts_bits := (ts <<< 22) % 2 ^ 64
  let node_bits := node <<< 12
  ts_bits ||| node_bits ||| seq

/-- `parse_id` from `lib.rs`: extracts the three fields by masking and
shifting.  The `try_into().unwrap()` conversions to `u16` in the source
always succeed because the masked fields fit in 10 and 12 bits. -/
def parse_id (id : Nat) : Snowflake :=
  let node_id := (id &&& 0x3FF000) >>> 12
  let seq_num := id &&& 0xFFF
  let ts := (id &&& 0x7FFFFFFFFFC00000) >>> 22
  ⟨node_id, seq_num, ts⟩

/-- Error conditions named by the specification.  The generator
constructor's `assert!` failure is the `InvalidNodeId` condition. -/
inductive SnowflakeError where
  | InvalidNodeId
  | FieldOutOfRange
deriving DecidableEq, Repr

/-- `Snowflake::new` from `lib.rs`: `assert!(node_id < 1024)` then the
fresh state.  The assertion failure (a panic in Rust) is modelled as an
`Except.error`. -/
def Snowflake.new (node_id : Nat) : Except SnowflakeError Snowflake :=
  if node_id < 1024 then .ok ⟨node_id, 0, 0⟩ else .error .InvalidNodeId

/-- The `Clock` trait from `clock.rs`, turned into explicit state passing:
`get_time` returns the reading and the successor clock state, `wait`
returns the clock state after blocking for one tick. -/
structure ClockM (σ : Type) where
  get_time : σ → Nat × σ
  wait : σ → σ

/-- `MockClock` from `clock.rs`: the state is the internal `Cell<u64>`;
`get_time` returns it unchanged and `wait` advances it by exactly 1. -/
def MockClock : ClockM Nat where
  get_time c := (c, c)
  wait c := c + 1

/-- The `Cell<u64>` state of `SystemTimeClock` from `clock.rs`. -/
structure SystemTimeClock where
  cell : Nat

/-- `SystemTimeClock::get_time` from `clock.rs`: `new_ts` is the epoch-
adjusted wall-clock reading (`millis - EPOCH` converted to `u64`); the
cell is raised to it only when the reading exceeds the stored maximum,
and the (possibly clamped) cell value is returned. -/
def SystemTimeClock.get_time (c : SystemTimeClock) (new_ts : Nat) :
    Nat × SystemTimeClock :=
  if new_ts > c.cell then (new_ts, ⟨new_ts⟩) else (c.cell, c)

/-- The values returned by repeated `SystemTimeClock::get_time` calls
against an arbitrary list of underlying wall-clock readings. -/
def SystemTimeClock.outputs (c : SystemTimeClock) : List Nat → List Nat
  | [] => []
  | r :: rs =>
    let p := c.get_time r
    p.1 :: p.2.outputs rs

/-- `Snowflake::generate` from `lib.rs`, over an explicit clock: returns
the emitted id, the updated generator state and the updated clock state.
Mirrors the source branch for branch: on a reading equal to `self.ts` the
sequence is incremented and, past `MAX_SEQ_NUM`, the generator waits,
re-reads the clock, and resets the sequence; otherwise the timestamp is
clamped to `max(self.ts, sys_time)` and the sequence reset. -/
def Snowflake.generate {σ : Type} (clk : ClockM σ) (s : Snowflake) (cs : σ) :
    Nat × Snowflake × σ :=
  let r1 := clk.get_time cs
  if s.ts = r1.1 then
    if s.seq_num + 1 > MAX_SEQ_NUM then
      let r2 := clk.get_time (clk.wait r1.2)
      let ts1 := max s.ts r2.1
      (create_id ts1 s.node_id 0, ⟨s.node_id, 0, ts1⟩, r2.2)
    else
      let ts1 := max s.ts r1.1
      (create_id ts1 s.node_id (s.seq_num + 1), ⟨s.node_id, s.seq_num + 1, ts1⟩, r1.2)
  else
    let ts1 := max s.ts r1.1
    (create_id ts1 s.node_id 0, ⟨s.node_id, 0, ts1⟩, r1.2)

/-- The list of ids produced by `n` successive `generate` calls
(the `Iterator` implementation consumed with `take n`). -/
def genList {σ : Type} (clk : ClockM σ) : Nat → Snowflake → σ → List Nat
  | 0, _, _ => []
  | n + 1, s, cs =>
    let r := Snowflake.generate clk s cs
    r.1 :: genList clk n r.2.1 r.2.2

/-- Generator and clock state after `n` successive `generate` calls. -/
def genIter {σ : Type} (clk : ClockM σ) (s : Snowflake) (cs : σ) :
    Nat → Snowflake × σ
  | 0 => (s, cs)
  | n + 1 =>
    let p := genIter clk s cs n
    let r := Snowflake.generate clk p.1 p.2
    (r.2.1, r.2.2)

/-- The id returned by the `(n+1)`-st `generate` call. -/
def nthId {σ : Type} (clk : ClockM σ) (s : Snowflake) (cs : σ) (n : Nat) : Nat :=
  (Snowflake.generate clk (genIter clk s cs n).1 (genIter clk s cs n).2).1

/- ### Arithmetic characterisation of the codec -/

/-- Shifted-mask extraction: `(x & ((2^n - 1) << k)) >> k = x / 2^k % 2^n`. -/
theorem and_mask_shift (x n k : Nat) :
    (x &&& ((2 ^ n - 1) * 2 ^ k)) >>> k = x / 2 ^ k % 2 ^ n := by
  apply Nat.eq_of_testBit_eq
  intro i
  rw [← Nat.shiftLeft_eq, ← Nat.shiftRight_eq_div_pow]
  simp [Nat.testBit_shiftRight, Nat.testBit_and, Nat.testBit_shiftLeft,
    Nat.testBit_mod_two_pow, Nat.testBit_two_pow_sub_one,
    Nat.add_sub_cancel_left, Bool.and_comm]

/-- `create_id` computes a plain sum of shifted fields whenever the node
and sequence numbers are in range (any timestamp; only its low 42 bits
survive the `u64` shift). -/
theorem create_id_eq (ts node seq : Nat) (hn : node ≤ 1023) (hs : seq ≤ 4095) :
    create_id ts node seq = 2 ^ 22 * (ts % 2 ^ 42) + node * 2 ^ 12 + seq := by
  have h64 : (2 : Nat) ^ 64 = 2 ^ 22 * 2 ^ 42 := by norm_num
  have hts : (ts <<< 22) % 2 ^ 64 = 2 ^ 22 * (ts % 2 ^ 42) := by
    rw [Nat.shiftLeft_eq, Nat.mul_comm, h64, Nat.mul_mod_mul_left]
  have hlow : node <<< 12 ||| seq = 2 ^ 12 * node + seq := by
    rw [Nat.shiftLeft_eq, Nat.mul_comm]
    exact (Nat.mul_add_lt_is_or (by omega) node).symm
  have hlow_lt : 2 ^ 12 * node + seq < 2 ^ 22 := by
    have : 2 ^ 12 * node ≤ 2 ^ 12 * 1023 := Nat.mul_le_mul_left _ hn
    omega
  calc create_id ts node seq
      = ((ts <<< 22) % 2 ^ 64) ||| (node <<< 12 ||| seq) := by
        unfold create_id; rw [Nat.or_assoc]
    _ = 2 ^ 22 * (ts % 2 ^ 42) ||| (2 ^ 12 * node + seq) := by rw [hts, hlow]
    _ = 2 ^ 22 * (ts % 2 ^ 42) + (2 ^ 12 * node + seq) :=
        (Nat.mul_add_lt_is_or hlow_lt _).symm
    _ = 2 ^ 22 * (ts % 2 ^ 42) + node * 2 ^ 12 + seq := by ring

/-- `parse_id` in terms of division and remainder: the node field is bits
12–21, the sequence field bits 0–11, and the timestamp field bits 22–62
(41 bits: the top bit of the 64-bit id is not covered by the mask
`0x7FFFFFFFFFC00000`). -/
theorem parse_id_fields (id : Nat) :
    parse_id id = ⟨id / 2 ^ 12 % 2 ^ 10, id % 2 ^ 12, id / 2 ^ 22 % 2 ^ 41⟩ := by
  have hnode : (0x3FF000 : Nat) = (2 ^ 10 - 1) * 2 ^ 12 := by norm_num
  have hseq : (0xFFF : Nat) = 2 ^ 12 - 1 := by norm_num
  have hts : (0x7FFFFFFFFFC00000 : Nat) = (2 ^ 41 - 1) * 2 ^ 22 := by norm_num
  unfold parse_id
  rw [hnode, hseq, hts, and_mask_shift, and_mask_shift,
    Nat.and_pow_two_sub_one_eq_mod]

/-- Round-trip of the codec for timestamps below `2^41` (shared helper). -/
theorem parse_create (ts node seq : Nat) (h1 : ts < 2 ^ 41)
    (h2 : node ≤ 1023) (h3 : seq ≤ 4095) :
    parse_id (create_id ts node seq) = ⟨node, seq, ts⟩ := by
  rw [create_id_eq ts node seq h2 h3, parse_id_fields, Snowflake.mk.injEq]
  have e22 : (2 : Nat) ^ 22 = 4194304 := by norm_num
  have e12 : (2 : Nat) ^ 12 = 4096 := by norm_num
  have e10 : (2 : Nat) ^ 10 = 1024 := by norm_num
  have e41 : (2 : Nat) ^ 41 = 2199023255552 := by norm_num
  have e42 : (2 : Nat) ^ 42 = 4398046511104 := by norm_num
  rw [e22, e12, e10, e41, e42] at *
  omega

/-- The node and sequence fields decode correctly for any timestamp
(shared helper used for invariants that do not bound the clock). -/
theorem parse_create_node_seq (ts node seq : Nat) (hn : node ≤ 1023)
    (hs : seq ≤ 4095) :
    (parse_id (create_id ts node seq)).node_id = node ∧
    (parse_id (create_id ts node seq)).seq_num = seq := by
  rw [create_id_eq ts node seq hn hs, parse_id_fields]
  have e22 : (2 : Nat) ^ 22 = 4194304 := by norm_num
  have e12 : (2 : Nat) ^ 12 = 4096 := by norm_num
  have e10 : (2 : Nat) ^ 10 = 1024 := by norm_num
  have e42 : (2 : Nat) ^ 42 = 4398046511104 := by norm_num
  refine ⟨?_, ?_⟩
  · show (2 ^ 22 * (ts % 2 ^ 42) + node * 2 ^ 12 + seq) / 2 ^ 12 % 2 ^ 10 = node
    rw [e22, e12, e10, e42]
    omega
  · show (2 ^ 22 * (ts % 2 ^ 42) + node * 2 ^ 12 + seq) % 2 ^ 12 = seq
    rw [e22, e12, e42]
    omega

/-- Strict monotonicity of `create_id` in the lexicographic order on
`(ts, seq)` for in-range fields (shared helper). -/
theorem create_id_lt (node ts ts' seq seq' : Nat) (hn : node ≤ 1023)
    (hts' : ts' < 2 ^ 42) (hs : seq ≤ 4095) (hs' : seq' ≤ 4095)
    (hlex : ts < ts' ∨ (ts = ts' ∧ seq < seq')) :
    create_id ts node seq < create_id ts' node seq' := by
  have hts : ts < 2 ^ 42 := by omega
  rw [create_id_eq ts node seq hn hs, create_id_eq ts' node seq' hn hs',
    Nat.mod_eq_of_lt hts, Nat.mod_eq_of_lt hts']
  have e22 : (2 : Nat) ^ 22 = 4194304 := by norm_num
  have e12 : (2 : Nat) ^ 12 = 4096 := by norm_num
  rw [e22, e12]
  omega

/- ### Branch characterisations of `generate` -/

/-- `generate` when the clock reading differs from the stored timestamp. -/
theorem generate_ne_branch {σ : Type} (clk : ClockM σ) (s : Snowflake) (cs : σ)
    (h : ¬ s.ts = (clk.get_time cs).1) :
    Snowflake.generate clk s cs =
      (create_id (max s.ts (clk.get_time cs).1) s.node_id 0,
       ⟨s.node_id, 0, max s.ts (clk.get_time cs).1⟩, (clk.get_time cs).2) := by
  simp only [Snowflake.generate]
  rw [if_neg h]

/-- `generate` when the reading equals the stored timestamp and the
sequence is not yet exhausted. -/
theorem generate_inc_branch {σ : Type} (clk : ClockM σ) (s : Snowflake) (cs : σ)
    (h1 : s.ts = (clk.get_time cs).1) (h2 : ¬ s.seq_num + 1 > MAX_SEQ_NUM) :
    Snowflake.generate clk s cs =
      (create_id (max s.ts (clk.get_time cs).1) s.node_id (s.seq_num + 1),
       ⟨s.node_id, s.seq_num + 1, max s.ts (clk.get_time cs).1⟩,
       (clk.get_time cs).2) := by
  simp only [Snowflake.generate]
  rw [if_pos h1, if_neg h2]

/-- `generate` when the reading equals the stored timestamp and the
sequence is exhausted: wait one tick and re-read the clock. -/
theorem generate_rollover_branch {σ : Type} (clk : ClockM σ) (s : Snowflake)
    (cs : σ) (h1 : s.ts = (clk.get_time cs).1)
    (h2 : s.seq_num + 1 > MAX_SEQ_NUM) :
    Snowflake.generate clk s cs =
      (create_id
        (max s.ts (clk.get_time (clk.wait (clk.get_time cs).2)).1) s.node_id 0,
       ⟨s.node_id, 0,
        max s.ts (clk.get_time (clk.wait (clk.get_time cs).2)).1⟩,
       (clk.get_time (clk.wait (clk.get_time cs).2)).2) := by
  simp only [Snowflake.generate]
  rw [if_pos h1, if_pos h2]

/-- `generate` under the mock clock, unexhausted-sequence equal branch. -/
theorem mock_inc_eq (s : Snowflake) (c : Nat) (h1 : s.ts = c)
    (h2 : ¬ s.seq_num + 1 > MAX_SEQ_NUM) :
    Snowflake.generate MockClock s c =
      (create_id (max s.ts c) s.node_id (s.seq_num + 1),
       ⟨s.node_id, s.seq_num + 1, max s.ts c⟩, c) := by
  rw [generate_inc_branch MockClock s c h1 h2]
  rfl

/-- `generate` under the mock clock, exhausted-sequence branch: the wait
advances the counter by one and the re-read returns `c + 1`. -/
theorem mock_rollover_eq (s : Snowflake) (c : Nat) (h1 : s.ts = c)
    (h2 : s.seq_num + 1 > MAX_SEQ_NUM) :
    Snowflake.generate MockClock s c =
      (create_id (max s.ts (c + 1)) s.node_id 0,
       ⟨s.node_id, 0, max s.ts (c + 1)⟩, c + 1) := by
  rw [generate_rollover_branch MockClock s c h1 h2]
  rfl

/-- `generate` under the mock clock, differing-timestamp branch. -/
theorem mock_ne_eq (s : Snowflake) (c : Nat) (h1 : ¬ s.ts = c) :
    Snowflake.generate MockClock s c =
      (create_id (max s.ts c) s.node_id 0, ⟨s.node_id, 0, max s.ts c⟩, c) := by
  rw [generate_ne_branch MockClock s c h1]
  rfl

/-- One mock-clock `generate` step: the node id is preserved, the sequence
stays in range, the timestamp stays at or below the (by at most one
advanced) clock, the emitted id encodes the post-state, and `(ts, seq)`
strictly increases lexicographically. -/
theorem mock_step (s : Snowflake) (c : Nat) (h2 : s.seq_num ≤ 4095)
    (h3 : s.ts ≤ c) :
    (Snowflake.generate MockClock s c).2.1.node_id = s.node_id ∧
    (Snowflake.generate MockClock s c).2.1.seq_num ≤ 4095 ∧
    (Snowflake.generate MockClock s c).2.1.ts ≤
      (Snowflake.generate MockClock s c).2.2 ∧
    (Snowflake.generate MockClock s c).2.2 ≤ c + 1 ∧
    (Snowflake.generate MockClock s c).1 =
      create_id (Snowflake.generate MockClock s c).2.1.ts
        (Snowflake.generate MockClock s c).2.1.node_id
        (Snowflake.generate MockClock s c).2.1.seq_num ∧
    (s.ts < (Snowflake.generate MockClock s c).2.1.ts ∨
      (s.ts = (Snowflake.generate MockClock s c).2.1.ts ∧
       s.seq_num < (Snowflake.generate MockClock s c).2.1.seq_num)) := by
  by_cases h1 : s.ts = c
  · by_cases hro : s.seq_num + 1 > MAX_SEQ_NUM
    · rw [mock_rollover_eq s c h1 hro]
      refine ⟨rfl, ?_, ?_, ?_, rfl, ?_⟩
      · show (0 : Nat) ≤ 4095
        omega
      · show max s.ts (c + 1) ≤ c + 1
        omega
      · show c + 1 ≤ c + 1
        omega
      · show s.ts < max s.ts (c + 1) ∨ (s.ts = max s.ts (c + 1) ∧ s.seq_num < 0)
        omega
    · rw [mock_inc_eq s c h1 hro]
      simp only [MAX_SEQ_NUM] at hro
      refine ⟨rfl, ?_, ?_, ?_, rfl, ?_⟩
      · show s.seq_num + 1 ≤ 4095
        omega
      · show max s.ts c ≤ c
        omega
      · show c ≤ c + 1
        omega
      · show s.ts < max s.ts c ∨ (s.ts = max s.ts c ∧ s.seq_num < s.seq_num + 1)
        omega
  · rw [mock_ne_eq s c h1]
    refine ⟨rfl, ?_, ?_, ?_, rfl, ?_⟩
    · show (0 : Nat) ≤ 4095
      omega
    · show max s.ts c ≤ c
      omega
    · show c ≤ c + 1
      omega
    · show s.ts < max s.ts c ∨ (s.ts = max s.ts c ∧ s.seq_num < 0)
      omega

/-- Unfolding of `genIter` at a successor. -/
theorem genIter_succ {σ : Type} (clk : ClockM σ) (s : Snowflake) (cs : σ)
    (n : Nat) :
    genIter clk s cs (n + 1) =
      ((Snowflake.generate clk (genIter clk s cs n).1 (genIter clk s cs n).2).2.1,
       (Snowflake.generate clk (genIter clk s cs n).1 (genIter clk s cs n).2).2.2) :=
  rfl

/-- The id stream under the mock clock is strictly increasing, even when
preceded by the encoding of the current state (shared induction). -/
theorem mock_chain (n : Nat) : ∀ (s : Snowflake) (c : Nat),
    s.node_id ≤ 1023 → s.seq_num ≤ 4095 → s.ts ≤ c → c + n < 2 ^ 42 →
    List.Chain' (· < ·)
      (create_id s.ts s.node_id s.seq_num :: genList MockClock n s c) := by
  induction n with
  | zero =>
    intro s c _ _ _ _
    exact List.chain'_singleton _
  | succ n ih =>
    intro s c h1 h2 h3 h4
    obtain ⟨hnode, hseq, hts, hclk, hid, hlex⟩ := mock_step s c h2 h3
    have hgl : genList MockClock (n + 1) s c =
        (Snowflake.generate MockClock s c).1 ::
          genList MockClock n (Snowflake.generate MockClock s c).2.1
            (Snowflake.generate MockClock s c).2.2 := rfl
    rw [hgl, List.chain'_cons]
    constructor
    · rw [hid, hnode]
      exact create_id_lt s.node_id s.ts (Snowflake.generate MockClock s c).2.1.ts
        s.seq_num (Snowflake.generate MockClock s c).2.1.seq_num h1
        (by omega) h2 hseq hlex
    · rw [hid]
      exact ih (Snowflake.generate MockClock s c).2.1
        (Snowflake.generate MockClock s c).2.2 (by omega) hseq hts (by omega)

/-- Trajectory of a fresh generator under a mock clock frozen at `c > 0`:
after `k + 1` calls (`k ≤ 4095`) the state is `⟨node, k, c⟩` and the
clock has not moved. -/
theorem genIter_mock (node c : Nat) (hc : 0 < c) :
    ∀ k, k ≤ 4095 → genIter MockClock ⟨node, 0, 0⟩ c (k + 1) = (⟨node, k, c⟩, c) := by
  intro k
  induction k with
  | zero =>
    intro _
    rw [genIter_succ]
    show ((Snowflake.generate MockClock ⟨node, 0, 0⟩ c).2.1,
          (Snowflake.generate MockClock ⟨node, 0, 0⟩ c).2.2) = (⟨node, 0, c⟩, c)
    rw [mock_ne_eq ⟨node, 0, 0⟩ c (by show ¬ (0 : Nat) = c; omega)]
    show ((⟨node, 0, max 0 c⟩ : Snowflake), c) = (⟨node, 0, c⟩, c)
    rw [Nat.zero_max]
  | succ k ih =>
    intro hk
    rw [genIter_succ, ih (by omega)]
    show ((Snowflake.generate MockClock ⟨node, k, c⟩ c).2.1,
          (Snowflake.generate MockClock ⟨node, k, c⟩ c).2.2) = (⟨node, k + 1, c⟩, c)
    rw [mock_inc_eq ⟨node, k, c⟩ c rfl
      (by show ¬ k + 1 > MAX_SEQ_NUM; simp only [MAX_SEQ_NUM]; omega)]
    show ((⟨node, k + 1, max c c⟩ : Snowflake), c) = (⟨node, k + 1, c⟩, c)
    rw [Nat.max_self]

/-- `genIter_mock` restated at an arbitrary positive call count, so that
instantiating at a numeral leaves the numeral untouched. -/
theorem genIter_mock_at (node c : Nat) (hc : 0 < c) (k : Nat) (h1 : 0 < k)
    (h2 : k ≤ 4096) :
    genIter MockClock ⟨node, 0, 0⟩ c k = (⟨node, k - 1, c⟩, c) := by
  cases k with
  | zero => omega
  | succ j => exact genIter_mock node c hc j (by omega)

/-- `nthId` rewritten through a known `genIter` state, keeping the call
count symbolic so no evaluation of `genIter` is ever forced. -/
theorem nthId_eq_of_genIter {σ : Type} (clk : ClockM σ) (s : Snowflake)
    (cs : σ) (n : Nat) (t : Snowflake) (ct : σ)
    (h : genIter clk s cs n = (t, ct)) :
    nthId clk s cs n = (Snowflake.generate clk t ct).1 := by
  unfold nthId
  rw [h]

/-- The ids emitted by a fresh generator under a mock clock frozen at
`c > 0`: calls 1 to 4096 emit `(ts = c, seq = 0..4095)`; call 4097 rolls
the sequence over and emits `(ts = c + 1, seq = 0)`. -/
theorem nthId_mock (node c : Nat) (hc : 0 < c) :
    (∀ i, i ≤ 4095 → nthId MockClock ⟨node, 0, 0⟩ c i = create_id c node i) ∧
    nthId MockClock ⟨node, 0, 0⟩ c 4096 = create_id (c + 1) node 0 := by
  constructor
  · intro i hi
    cases i with
    | zero =>
      rw [nthId_eq_of_genIter MockClock ⟨node, 0, 0⟩ c 0 ⟨node, 0, 0⟩ c rfl]
      rw [mock_ne_eq ⟨node, 0, 0⟩ c (by show ¬ (0 : Nat) = c; omega)]
      show create_id (max 0 c) node 0 = create_id c node 0
      rw [Nat.zero_max]
    | succ j =>
      rw [nthId_eq_of_genIter MockClock ⟨node, 0, 0⟩ c (j + 1) ⟨node, j, c⟩ c
        (genIter_mock node c hc j (by omega))]
      rw [mock_inc_eq ⟨node, j, c⟩ c rfl
        (by show ¬ j + 1 > MAX_SEQ_NUM; simp only [MAX_SEQ_NUM]; omega)]
      show create_id (max c c) node (j + 1) = create_id c node (j + 1)
      rw [Nat.max_self]
  · rw [nthId_eq_of_genIter MockClock ⟨node, 0, 0⟩ c 4096 ⟨node, 4095, c⟩ c
      (genIter_mock_at node c hc 4096 (by omega) (by omega))]
    rw [mock_rollover_eq ⟨node, 4095, c⟩ c rfl
      (by show 4095 + 1 > MAX_SEQ_NUM; simp only [MAX_SEQ_NUM]; omega)]
    show create_id (max c (c + 1)) node 0 = create_id (c + 1) node 0
    rw [Nat.max_eq_right (by omega)]

/-- `SystemTimeClock::get_time` returns exactly the updated cell, which
never decreases. -/
theorem system_get_time_cell (c : SystemTimeClock) (r : Nat) :
    (c.get_time r).1 = (c.get_time r).2.cell ∧ c.cell ≤ (c.get_time r).2.cell := by
  unfold SystemTimeClock.get_time
  by_cases h : r > c.cell
  · rw [if_pos h]
    exact ⟨rfl, Nat.le_of_lt h⟩
  · rw [if_neg h]
    exact ⟨rfl, Nat.le_refl _⟩

/-- Every value `SystemTimeClock` ever returns is at least the cell value
it started from. -/
theorem system_outputs_ge : ∀ (raws : List Nat) (c : SystemTimeClock) (x : Nat),
    x ∈ c.outputs raws → c.cell ≤ x := by
  intro raws
  induction raws with
  | nil =>
    intro c x hx
    exact absurd hx (List.not_mem_nil x)
  | cons r rs ih =>
    intro c x hx
    obtain ⟨h1, h2⟩ := system_get_time_cell c r
    have hout : c.outputs (r :: rs) =
        (c.get_time r).1 :: (c.get_time r).2.outputs rs := rfl
    rw [hout] at hx
    rcases List.mem_cons.mp hx with h | h
    · rw [h, h1]
      exact h2
    · have h3 := ih (c.get_time r).2 x h
      omega

/- ### Claims -/

/-- C1, counterexample: the stated 42-bit round-trip fails.  At
`ts = 2^41`, `node = 0`, `seq = 0` (all within the claim's ranges), the
timestamp bit 41 is shifted to id bit 63, which the decode mask
`0x7FFFFFFFFFC00000` drops, so the decoded timestamp is `0`, not `2^41`. -/
theorem roundtrip_42bit_counterexample :
    (2 : Nat) ^ 41 < 2 ^ 42 ∧ (0 : Nat) ≤ 1023 ∧ (0 : Nat) ≤ 4095 ∧
    ¬ parse_id (create_id (2 ^ 41) 0 0) = ⟨0, 0, 2 ^ 41⟩ := by
  decide

/-- C1 (amended): for every `node_id ≤ 1023`, `seq ≤ 4095` and timestamp
fitting in 41 bits (`ts < 2^41`), `parse_id (create_id ts node seq)`
recovers exactly `(ts, node, seq)`. -/
theorem roundtrip_41bit (ts node seq : Nat) (h1 : ts < 2 ^ 41)
    (h2 : node ≤ 1023) (h3 : seq ≤ 4095) :
    parse_id (create_id ts node seq) = ⟨node, seq, ts⟩ :=
  parse_create ts node seq h1 h2 h3

/-- Witness for C1 (amended) at `ts = 123456789`, `node = 777`,
`seq = 1234`. -/
theorem roundtrip_41bit_witness :
    123456789 < 2 ^ 41 ∧ (777 : Nat) ≤ 1023 ∧ (1234 : Nat) ≤ 4095 ∧
    parse_id (create_id 123456789 777 1234) = ⟨777, 1234, 123456789⟩ :=
  ⟨by decide, by decide, by decide,
   roundtrip_41bit 123456789 777 1234 (by decide) (by decide) (by decide)⟩

/-- C3: `create_id` performs no range validation at all.  With
`node = 1024` it returns `4194304 = 2^22`, which decodes as
`(ts = 1, node = 0, seq = 0)`: the out-of-range node silently corrupted
the timestamp field instead of producing a `FieldOutOfRange` error.
Likewise `seq = 4096` corrupts the node field. -/
theorem create_id_out_of_range_corrupts :
    create_id 0 1024 0 = 4194304 ∧ parse_id (create_id 0 1024 0) = ⟨0, 0, 1⟩ ∧
    create_id 0 0 4096 = 4096 ∧ parse_id (create_id 0 0 4096) = ⟨1, 0, 0⟩ := by
  decide

/-- C6: `parse_id` is total and its extracted fields are always in range
(node `≤ 1023`, sequence `≤ 4095`) for every 64-bit input, so the `u16`
conversions inside `parse_id` can never fail. -/
theorem parse_id_total_in_range (id : Nat) :
    (parse_id id).node_id ≤ 1023 ∧ (parse_id id).seq_num ≤ 4095 := by
  rw [parse_id_fields]
  refine ⟨?_, ?_⟩
  · show id / 4096 % 1024 ≤ 1023
    have h := Nat.mod_lt (id / 4096) (show 0 < 1024 by norm_num)
    omega
  · show id % 4096 ≤ 4095
    have h := Nat.mod_lt id (show 0 < 4096 by norm_num)
    omega

/-- C7: the concrete example from the test suite:
`create_id 123456789 777 1234 = 517815307113682`, and decoding that id
yields exactly `(ts = 123456789, node = 777, seq = 1234)`. -/
theorem encode_decode_concrete :
    create_id 123456789 777 1234 = 517815307113682 ∧
    parse_id 517815307113682 = ⟨777, 1234, 123456789⟩ := by
  decide

/-- C8: `Snowflake::new` rejects every `node_id ≥ 1024` (the `assert!`
fires, no generator state is produced) and succeeds for every
`node_id ≤ 1023` with the fresh state `⟨node_id, 0, 0⟩`. -/
theorem new_node_id_validation (node_id : Nat) :
    (1024 ≤ node_id → Snowflake.new node_id = .error .InvalidNodeId) ∧
    (node_id ≤ 1023 → Snowflake.new node_id = .ok ⟨node_id, 0, 0⟩) := by
  unfold Snowflake.new
  refine ⟨fun h => ?_, fun h => ?_⟩
  · rw [if_neg (by omega)]
  · rw [if_pos (by omega)]

/-- Witness for C8 at `node_id = 1024` (rejected) and `node_id = 5`
(accepted). -/
theorem new_node_id_validation_witness :
    ((1024 : Nat) ≤ 1024 ∧ Snowflake.new 1024 = .error .InvalidNodeId) ∧
    ((5 : Nat) ≤ 1023 ∧ Snowflake.new 5 = .ok ⟨5, 0, 0⟩) :=
  ⟨⟨by decide, (new_node_id_validation 1024).1 (by decide)⟩,
   ⟨by decide, (new_node_id_validation 5).2 (by decide)⟩⟩

/-- C9: the values returned by repeated `SystemTimeClock::get_time` calls
are pairwise non-decreasing — each returned value is at least every
previously returned one — for every sequence of raw wall-clock readings,
including ones that move backwards, because the cell clamps to the
last-seen maximum. -/
theorem system_clock_monotone (c : SystemTimeClock) (raws : List Nat) :
    List.Pairwise (· ≤ ·) (SystemTimeClock.outputs c raws) := by
  induction raws generalizing c with
  | nil => exact List.Pairwise.nil
  | cons r rs ih =>
    have hout : c.outputs (r :: rs) =
        (c.get_time r).1 :: (c.get_time r).2.outputs rs := rfl
    rw [hout]
    refine List.Pairwise.cons ?_ (ih (c.get_time r).2)
    intro x hx
    obtain ⟨h1, _⟩ := system_get_time_cell c r
    have h3 := system_outputs_ge rs (c.get_time r).2 x hx
    omega

/-- C2: under the deterministic time source, `n` successive `generate`
calls on one generator yield a strictly increasing list of ids, for every
`n` — in particular beyond 4096, across millisecond rollovers — provided
the initial state is well-formed (`node_id ≤ 1023`, `seq_num ≤ 4095`,
`ts` at most the clock) and the timestamps stay inside the 42-bit field
(`c + n < 2^42`, the regime the spec assumes "for decades"). -/
theorem generate_strictMono (n c : Nat) (s : Snowflake) (h1 : s.node_id ≤ 1023)
    (h2 : s.seq_num ≤ 4095) (h3 : s.ts ≤ c) (h4 : c + n < 2 ^ 42) :
    List.Chain' (· < ·) (genList MockClock n s c) :=
  (mock_chain n s c h1 h2 h3 h4).tail

/-- Witness for C2: 4098 calls from a fresh generator (node 1, clock 1),
crossing the sequence rollover at call 4097. -/
theorem generate_strictMono_witness :
    (Snowflake.mk 1 0 0).node_id ≤ 1023 ∧ (Snowflake.mk 1 0 0).seq_num ≤ 4095 ∧
    (Snowflake.mk 1 0 0).ts ≤ 1 ∧ 1 + 4098 < 2 ^ 42 ∧
    List.Chain' (· < ·) (genList MockClock 4098 ⟨1, 0, 0⟩ 1) :=
  ⟨by decide, by decide, by decide, by decide,
   generate_strictMono 4098 1 ⟨1, 0, 0⟩ (by decide) (by decide) (by decide)
     (by decide)⟩

/-- C4: with the mock time source frozen at a constant reading `c > 0`,
the first 4096 `generate` calls on a fresh generator decode to sequence
numbers `0..4095`, all with the same decoded timestamp as the first call;
the 4097th call decodes to a timestamp exactly one tick greater and
sequence number `0`.  (`nthId … i` is the id of call `i + 1`.) -/
theorem sequence_rollover (node c i : Nat) (hn : node ≤ 1023) (hc : 0 < c)
    (hb : c + 1 < 2 ^ 41) (hi : i < 4096) :
    (parse_id (nthId MockClock ⟨node, 0, 0⟩ c i)).seq_num = i ∧
    (parse_id (nthId MockClock ⟨node, 0, 0⟩ c i)).ts =
      (parse_id (nthId MockClock ⟨node, 0, 0⟩ c 0)).ts ∧
    (parse_id (nthId MockClock ⟨node, 0, 0⟩ c 4096)).ts =
      (parse_id (nthId MockClock ⟨node, 0, 0⟩ c 0)).ts + 1 ∧
    (parse_id (nthId MockClock ⟨node, 0, 0⟩ c 4096)).seq_num = 0 := by
  obtain ⟨hall, hroll⟩ := nthId_mock node c hc
  rw [hall i (by omega), hall 0 (by omega), hroll]
  rw [parse_create c node i (by omega) hn (by omega),
    parse_create c node 0 (by omega) hn (by omega),
    parse_create (c + 1) node 0 (by omega) hn (by omega)]
  exact ⟨rfl, rfl, rfl, rfl⟩

/-- Witness for C4 at `node = 123`, `c = 1`, `i = 5`. -/
theorem sequence_rollover_witness :
    (123 : Nat) ≤ 1023 ∧ (0 : Nat) < 1 ∧ 1 + 1 < 2 ^ 41 ∧ (5 : Nat) < 4096 ∧
    ((parse_id (nthId MockClock ⟨123, 0, 0⟩ 1 5)).seq_num = 5 ∧
     (parse_id (nthId MockClock ⟨123, 0, 0⟩ 1 5)).ts =
       (parse_id (nthId MockClock ⟨123, 0, 0⟩ 1 0)).ts ∧
     (parse_id (nthId MockClock ⟨123, 0, 0⟩ 1 4096)).ts =
       (parse_id (nthId MockClock ⟨123, 0, 0⟩ 1 0)).ts + 1 ∧
     (parse_id (nthId MockClock ⟨123, 0, 0⟩ 1 4096)).seq_num = 0) :=
  ⟨by decide, by decide, by decide, by decide,
   sequence_rollover 123 1 5 (by decide) (by decide) (by decide) (by decide)⟩

/-- C5: if the time source reports a reading strictly below the
generator's stored timestamp (clock regression), the next generated id's
decoded timestamp does not regress: it is still at least the decoded
timestamp of the previously produced id, because `generate` clamps to
`max(self.ts, sys_time)`.  Holds for any clock implementation. -/
theorem clock_regression_safe {σ : Type} (clk : ClockM σ) (cs : σ)
    (s : Snowflake) (hreg : (clk.get_time cs).1 < s.ts) (hts : s.ts < 2 ^ 41)
    (hn : s.node_id ≤ 1023) (hs : s.seq_num ≤ 4095) :
    (parse_id (create_id s.ts s.node_id s.seq_num)).ts ≤
      (parse_id (Snowflake.generate clk s cs).1).ts := by
  rw [generate_ne_branch clk s cs (by omega)]
  show (parse_id (create_id s.ts s.node_id s.seq_num)).ts ≤
    (parse_id (create_id (max s.ts (clk.get_time cs).1) s.node_id 0)).ts
  rw [Nat.max_eq_left (by omega)]
  rw [parse_create s.ts s.node_id s.seq_num hts hn hs,
    parse_create s.ts s.node_id 0 hts hn (by omega)]

/-- Witness for C5: generator at `ts = 10` with a mock clock reading 5. -/
theorem clock_regression_safe_witness :
    (MockClock.get_time 5).1 < (Snowflake.mk 1 3 10).ts ∧
    (Snowflake.mk 1 3 10).ts < 2 ^ 41 ∧
    (Snowflake.mk 1 3 10).node_id ≤ 1023 ∧
    (Snowflake.mk 1 3 10).seq_num ≤ 4095 ∧
    (parse_id (create_id (Snowflake.mk 1 3 10).ts (Snowflake.mk 1 3 10).node_id
        (Snowflake.mk 1 3 10).seq_num)).ts ≤
      (parse_id (Snowflake.generate MockClock ⟨1, 3, 10⟩ 5).1).ts :=
  ⟨by decide, by decide, by decide, by decide,
   clock_regression_safe MockClock 5 ⟨1, 3, 10⟩ (by decide) (by decide)
     (by decide) (by decide)⟩

/-- C10: if the generator state has `seq_num ≤ 4095` then after any
`generate` call — under any clock and any reading — the new state still
has `seq_num ≤ 4095`; moreover the emitted id's decoded node field equals
the generator's node id and its decoded sequence field equals the new
state's sequence number, so the sequence never overflows into the node
bits of an emitted id. -/
theorem generate_seq_invariant {σ : Type} (clk : ClockM σ) (cs : σ)
    (s : Snowflake) (hs : s.seq_num ≤ 4095) (hn : s.node_id ≤ 1023) :
    (Snowflake.generate clk s cs).2.1.seq_num ≤ 4095 ∧
    (parse_id (Snowflake.generate clk s cs).1).node_id = s.node_id ∧
    (parse_id (Snowflake.generate clk s cs).1).seq_num =
      (Snowflake.generate clk s cs).2.1.seq_num := by
  by_cases h1 : s.ts = (clk.get_time cs).1
  · by_cases h2 : s.seq_num + 1 > MAX_SEQ_NUM
    · rw [generate_rollover_branch clk s cs h1 h2]
      refine ⟨Nat.zero_le 4095, ?_, ?_⟩
      · exact (parse_create_node_seq _ s.node_id 0 hn (by omega)).1
      · exact (parse_create_node_seq _ s.node_id 0 hn (by omega)).2
    · rw [generate_inc_branch clk s cs h1 h2]
      simp only [MAX_SEQ_NUM] at h2
      refine ⟨?_, ?_, ?_⟩
      · show s.seq_num + 1 ≤ 4095
        omega
      · exact (parse_create_node_seq _ s.node_id (s.seq_num + 1) hn (by omega)).1
      · exact (parse_create_node_seq _ s.node_id (s.seq_num + 1) hn (by omega)).2
  · rw [generate_ne_branch clk s cs h1]
    refine ⟨Nat.zero_le 4095, ?_, ?_⟩
    · exact (parse_create_node_seq _ s.node_id 0 hn (by omega)).1
    · exact (parse_create_node_seq _ s.node_id 0 hn (by omega)).2

/-- Witness for C10: one call on a fresh generator under the mock clock. -/
theorem generate_seq_invariant_witness :
    (Snowflake.mk 1 0 0).seq_num ≤ 4095 ∧ (Snowflake.mk 1 0 0).node_id ≤ 1023 ∧
    ((Snowflake.generate MockClock ⟨1, 0, 0⟩ 0).2.1.seq_num ≤ 4095 ∧
     (parse_id (Snowflake.generate MockClock ⟨1, 0, 0⟩ 0).1).node_id =
       (Snowflake.mk 1 0 0).node_id ∧
     (parse_id (Snowflake.generate MockClock ⟨1, 0, 0⟩ 0).1).seq_num =
       (Snowflake.generate MockClock ⟨1, 0, 0⟩ 0).2.1.seq_num) :=
  ⟨by decide, by decide,
   generate_seq_invariant MockClock 0 ⟨1, 0, 0⟩ (by decide) (by decide)⟩
